import Mathlib

/-
Verification of the asset resolution engine of the arke-cdn-worker
repository: a shallow embedding of the metadata data model, the
registration validator (src/utils/validation.ts), the variant resolver
(src/utils/variants.ts), the registration handler and the retrieval
handler (src/handlers), together with theorems settling the spec claims.

Modelling conventions:
  * JavaScript optional string fields become Option String; the
    truthiness test a JS `if (x)` performs on such a field is `truthyS`
    (present and non-empty).
  * Numeric fields checked with `typeof x === "number"` become
    Option Nat, the check becoming `Option.isSome`.
  * A JS object used as a map from variant-name strings to variant
    records becomes an association list; JS object keys are unique, and
    every access in the source is a single-key lookup, modelled by the
    first-match lookup `lookupVar`.  `Object.keys(m).length` is the list
    length, and `Object.entries` iteration order is the list order.
  * Timestamp fields (created_at / updated_at) are environment inputs
    with no bearing on any claim and are left out of the record model.
  * The storage / network side effects of the handlers (KV get/put, R2
    get, URL fetch, response streaming) are cut at the decision
    boundary: `handleRegistration` returns the record that would be
    persisted (or none on validation failure), and `resolveRetrieval`
    returns the decision outcome (which location would be served, or
    which error would be produced) as the `Outcome` type, with
    `statusCode` recording the HTTP status the handler attaches.
-/

namespace ArkeCdn

/-- Truthiness of an optional JS string: present and non-empty. -/
def truthyS : Option String → Bool
  | none => false
  | some s => s != ""

/-- constants.ts: VARIANT_NAMES. -/
def VARIANT_NAMES : List String := ["thumb", "medium", "large", "original"]

/-- constants.ts: VARIANT_SIZES.thumb. -/
def VARIANT_SIZES_thumb : Nat := 200

/-- constants.ts: VARIANT_SIZES.medium. -/
def VARIANT_SIZES_medium : Nat := 1288

/-- constants.ts: VARIANT_SIZES.large. -/
def VARIANT_SIZES_large : Nat := 2400

/-- types.ts ImageVariant, at runtime shape (all fields may be absent in
a raw registration body; validation checks presence). -/
structure ImageVariant where
  r2_key : Option String := none
  url : Option String := none
  width : Option Nat := none
  height : Option Nat := none
  size_bytes : Option Nat := none
  content_type : Option String := none
  deriving DecidableEq, Repr

/-- The runtime `variants` object: variant-name string to record. -/
abbrev VariantsMap := List (String × ImageVariant)

/-- JS single-key object access `variants[name]`. -/
def lookupVar (vs : VariantsMap) (name : String) : Option ImageVariant :=
  (vs.find? (fun p => p.1 == name)).map Prod.snd

/-- types.ts AssetMetadata, at runtime shape. -/
structure AssetMetadata where
  storage_type : String := "r2"
  url : Option String := none
  r2_key : Option String := none
  content_type : Option String := none
  size_bytes : Option Nat := none
  is_image : Bool := false
  original_width : Option Nat := none
  original_height : Option Nat := none
  variants : Option VariantsMap := none
  default_variant : Option String := none
  deriving DecidableEq, Repr

/-- variants.ts isValidVariantName: membership in VARIANT_NAMES. -/
def isValidVariantName (name : String) : Bool :=
  VARIANT_NAMES.contains name

/-- The JS condition `metadata.original_width && metadata.original_width
<= VARIANT_SIZES.medium` (a number is truthy iff non-zero). -/
def numTruthyLeMedium : Option Nat → Bool
  | none => false
  | some w => w != 0 && decide (w ≤ VARIANT_SIZES_medium)

/-- variants.ts calculateDefaultVariant, the branch taken when no truthy
explicit default is set (the body of the function after its first two
early returns). -/
def defaultCascade (variants : Option VariantsMap) (ow : Option Nat) : String :=
  match variants with
  | none => "original"
  | some vs =>
    if (lookupVar vs "medium").isSome then "medium"
    else if (lookupVar vs "original").isSome && numTruthyLeMedium ow then "original"
    else if (lookupVar vs "large").isSome then "large"
    else if (lookupVar vs "original").isSome then "original"
    else if (lookupVar vs "thumb").isSome then "thumb"
    else "original"

/-- variants.ts calculateDefaultVariant. -/
def calculateDefaultVariant (m : AssetMetadata) : String :=
  if truthyS m.default_variant then m.default_variant.getD ""
  else defaultCascade m.variants m.original_width

/-- variants.ts fallbackChains, as the indexing `fallbackChains[req]`
behaves at runtime: the four declared chains, and undefined (none) for
any other string. -/
def fallbackChains (req : String) : Option (List String) :=
  if req == "thumb" then some ["thumb", "medium", "original"]
  else if req == "medium" then some ["medium", "original"]
  else if req == "large" then some ["large", "medium", "original"]
  else if req == "original" then some ["original"]
  else none

/-- The for-loop of getVariantToServe: first chain entry present in the
variants map, paired with its name. -/
def walkChain (vs : VariantsMap) : List String → Option (ImageVariant × String)
  | [] => none
  | n :: rest =>
    match lookupVar vs n with
    | some v => some (v, n)
    | none => walkChain vs rest

/-- variants.ts getVariantToServe.  `.error ()` marks the runtime
TypeError thrown when the requested name indexes no chain (iterating
undefined), which the handler's catch-all turns into a 500. -/
def getVariantToServe (m : AssetMetadata) (req : String) :
    Except Unit (Option (ImageVariant × String)) :=
  match m.variants with
  | none => Except.ok none
  | some vs =>
    match fallbackChains req with
    | none => Except.error ()
    | some chain => Except.ok (walkChain vs chain)

/-- variants.ts getVariantStorage: storage kind and location, r2 first. -/
def getVariantStorage (v : ImageVariant) : Option (String × String) :=
  if truthyS v.r2_key then some ("r2", v.r2_key.getD "")
  else if truthyS v.url then some ("url", v.url.getD "")
  else none

/-- variants.ts hasVariants. -/
def hasVariants (m : AssetMetadata) : Bool :=
  m.is_image &&
    (match m.variants with
     | some vs => decide (0 < vs.length)
     | none => false)

/-- validation.ts validateVariant. -/
def validateVariant (v : ImageVariant) : Bool :=
  (truthyS v.r2_key || truthyS v.url) &&
    (v.width.isSome && v.height.isSome && v.size_bytes.isSome)

/-- The distinct rejection messages validateRegistrationBody produces,
one constructor per message string; `invalidVariant` carries the
offending variant name interpolated into its message. -/
inductive ValError where
  | missingLocation : ValError
  | ambiguousLocation : ValError
  | invalidVariant : String → ValError
  | emptyVariants : ValError
  | missingLocationImage : ValError
  deriving DecidableEq, Repr

/-- Result shape of validateRegistrationBody. -/
inductive ValidationResult where
  | ok : ValidationResult
  | err : ValError → ValidationResult
  deriving DecidableEq, Repr

/-- The Object.entries loop of validateRegistrationBody: name of the
first entry failing validateVariant, if any. -/
def findInvalidVariant : VariantsMap → Option String
  | [] => none
  | (name, v) :: rest =>
    if validateVariant v then findInvalidVariant rest else some name

/-- A raw registration request body (the fields the handlers read). -/
structure RegBody where
  url : Option String := none
  r2_key : Option String := none
  content_type : Option String := none
  size_bytes : Option Nat := none
  is_image : Bool := false
  original_width : Option Nat := none
  original_height : Option Nat := none
  variants : Option VariantsMap := none
  default_variant : Option String := none
  deriving DecidableEq, Repr

/-- validation.ts validateRegistrationBody. -/
def validateRegistrationBody (body : RegBody) : ValidationResult :=
  if !body.is_image then
    if !truthyS body.url && !truthyS body.r2_key then .err .missingLocation
    else if truthyS body.url && truthyS body.r2_key then .err .ambiguousLocation
    else .ok
  else
    match body.variants with
    | some entries =>
      match findInvalidVariant entries with
      | some name => .err (.invalidVariant name)
      | none =>
        if entries.length = 0 then .err .emptyVariants
        else .ok
    | none =>
      if !truthyS body.url && !truthyS body.r2_key then .err .missingLocationImage
      else .ok

/-- The metadata record handleRegistration builds from the body
(timestamps omitted, see the header note). -/
def buildMetadata (body : RegBody) : AssetMetadata :=
  { storage_type := if truthyS body.url then "url" else "r2"
    url := body.url
    r2_key := body.r2_key
    content_type := body.content_type
    size_bytes := body.size_bytes
    is_image := body.is_image
    original_width := body.original_width
    original_height := body.original_height
    variants := body.variants
    default_variant := body.default_variant }

/-- handlers/registration handleRegistration, cut at the persistence
boundary: the record written to the metadata store, or none when
validation rejects (a 400 response, nothing persisted). -/
def handleRegistration (body : RegBody) : Option AssetMetadata :=
  match validateRegistrationBody body with
  | .err _ => none
  | .ok =>
    let m := buildMetadata body
    if hasVariants m && !truthyS m.default_variant then
      some { m with default_variant := some (calculateDefaultVariant m) }
    else
      some m

/-- The JS `path.split("/")`: groups of characters between slashes, with
empty groups kept (splitting the empty string gives one empty group). -/
def splitSlash : List Char → List (List Char)
  | [] => [[]]
  | c :: rest =>
    if c = '/' then [] :: splitSlash rest
    else
      match splitSlash rest with
      | [] => [[c]]
      | g :: gs => (c :: g) :: gs

/-- retrieval.ts: `trailingPath.split("/").filter(Boolean)[0] || ""`, the
first non-empty segment of the trailing path. -/
def firstToken (path : String) : String :=
  (((splitSlash path.data).map String.mk).filter (fun s => s != "")).headD ""

/-- Decision outcome of the retrieval handler for a record found in the
metadata store. -/
inductive Outcome where
  | serveVariant : ImageVariant → String → Outcome
  | noSuitableVariant : String → Outcome
  | invalidStorageConfig : Outcome
  | variantsNotAvailable : Outcome
  | servePrimaryR2 : String → Outcome
  | servePrimaryUrl : String → Outcome
  | missingStorageConfig : Outcome
  | internalError : Outcome
  deriving DecidableEq, Repr

/-- HTTP status the handler attaches to each outcome (a served stream is
a 200 Response). -/
def statusCode : Outcome → Nat
  | .serveVariant _ _ => 200
  | .noSuitableVariant _ => 404
  | .invalidStorageConfig => 500
  | .variantsNotAvailable => 400
  | .servePrimaryR2 _ => 200
  | .servePrimaryUrl _ => 200
  | .missingStorageConfig => 500
  | .internalError => 500

/-- The scalar (non-variant) serving branch of handleRetrieval. -/
def scalarServe (m : AssetMetadata) : Outcome :=
  if m.storage_type == "r2" && truthyS m.r2_key then
    .servePrimaryR2 (m.r2_key.getD "")
  else if m.storage_type == "url" && truthyS m.url then
    .servePrimaryUrl (m.url.getD "")
  else
    .missingStorageConfig

/-- The variant name the retrieval handler targets: the explicit path
token when recognized, else the record's default; none on the scalar
branch. -/
def retrievalTarget (m : AssetMetadata) (path : String) : Option String :=
  if hasVariants m then
    let fp := firstToken path
    some (if isValidVariantName fp then fp else calculateDefaultVariant m)
  else none

/-- handlers/retrieval handleRetrieval, cut at the decision boundary,
for a record found in the metadata store. -/
def resolveRetrieval (m : AssetMetadata) (path : String) : Outcome :=
  let fp := firstToken path
  let isVariantRequest := isValidVariantName fp
  if hasVariants m then
    let target := if isVariantRequest then fp else calculateDefaultVariant m
    match getVariantToServe m target with
    | .error _ => .internalError
    | .ok none => .noSuitableVariant target
    | .ok (some (v, actual)) =>
      match getVariantStorage v with
      | none => .invalidStorageConfig
      | some _ => .serveVariant v actual
  else
    if isVariantRequest then .variantsNotAvailable
    else scalarServe m

/-- Spec 4.3: the fixed per-target fallback chains, transcribed from the
spec's own list. -/
def specFallbackChain : String → List String
  | "thumb" => ["thumb", "medium", "original"]
  | "medium" => ["medium", "original"]
  | "large" => ["large", "medium", "original"]
  | "original" => ["original"]
  | _ => []

/-- Spec 3 / claim C4 (amended): a variant entry is well-formed when it
carries at least one non-empty location source and all three numeric
fields. -/
def specVariantOk (v : ImageVariant) : Prop :=
  ((v.r2_key.isSome = true ∧ v.r2_key ≠ some "") ∨
      (v.url.isSome = true ∧ v.url ≠ some "")) ∧
    v.width.isSome = true ∧ v.height.isSome = true ∧ v.size_bytes.isSome = true

instance (v : ImageVariant) : Decidable (specVariantOk v) := by
  unfold specVariantOk; infer_instance

/-- Claim C2's rule (2) guard, from the spec's words: the original's
width is known (a positive pixel width is recorded) and at most the
medium threshold. -/
def specWidthOk : Option Nat → Bool
  | none => false
  | some w => decide (0 < w) && decide (w ≤ 1288)

/-- Spec 4.2: the default-variant priority cascade, transcribed from the
spec's six rules. -/
def specDefaultVariant (vs : VariantsMap) (ow : Option Nat) : String :=
  if (lookupVar vs "medium").isSome then "medium"
  else if (lookupVar vs "original").isSome && specWidthOk ow then "original"
  else if (lookupVar vs "large").isSome then "large"
  else if (lookupVar vs "original").isSome then "original"
  else if (lookupVar vs "thumb").isSome then "thumb"
  else "original"

/-! ## Example records used to instantiate hypotheses of the theorems -/

/-- A well-formed variant entry stored internally. -/
def vEx : ImageVariant :=
  { r2_key := some "k", width := some 10, height := some 10, size_bytes := some 5 }

/-- A variant-bearing record holding medium and original. -/
def mEx1 : AssetMetadata :=
  { storage_type := "r2", r2_key := some "k", is_image := true,
    original_width := some 4416, original_height := some 3312,
    variants := some [("medium", vEx), ("original", vEx)] }

/-- A scalar (non-image) record stored internally. -/
def mScalar : AssetMetadata := { storage_type := "r2", r2_key := some "k" }

/-! ## Helper lemmas -/

theorem truthyS_eq_true (o : Option String) :
    truthyS o = true ↔ o.isSome = true ∧ o ≠ some "" := by
  cases o with
  | none => simp [truthyS]
  | some s => simp [truthyS]

theorem validateVariant_iff_spec (v : ImageVariant) :
    validateVariant v = true ↔ specVariantOk v := by
  simp [validateVariant, specVariantOk, Bool.and_eq_true, Bool.or_eq_true,
    truthyS_eq_true, and_assoc]

theorem findInvalidVariant_eq_none_iff (entries : VariantsMap) :
    findInvalidVariant entries = none ↔ ∀ e ∈ entries, validateVariant e.2 = true := by
  induction entries with
  | nil => simp [findInvalidVariant]
  | cons hd tl ih =>
    obtain ⟨n, v⟩ := hd
    by_cases hv : validateVariant v
    · simp [findInvalidVariant, hv, ih]
    · simp [findInvalidVariant, hv]

theorem findInvalidVariant_eq_some (entries : VariantsMap) (name : String)
    (h : findInvalidVariant entries = some name) :
    ∃ v, (name, v) ∈ entries ∧ validateVariant v = false := by
  induction entries with
  | nil => simp [findInvalidVariant] at h
  | cons hd tl ih =>
    obtain ⟨n, v⟩ := hd
    by_cases hv : validateVariant v
    · simp only [findInvalidVariant, hv, if_true] at h
      obtain ⟨w, hw, hwf⟩ := ih h
      exact ⟨w, List.mem_cons_of_mem _ hw, hwf⟩
    · simp only [findInvalidVariant, hv, if_false] at h
      obtain rfl := Option.some.inj h
      exact ⟨v, List.mem_cons_self _ _, by simpa using hv⟩

theorem numTruthyLeMedium_eq_specWidthOk (ow : Option Nat) :
    numTruthyLeMedium ow = specWidthOk ow := by
  cases ow with
  | none => rfl
  | some w =>
    cases w with
    | zero => rfl
    | succ n =>
      simp [numTruthyLeMedium, specWidthOk, VARIANT_SIZES_medium, Nat.succ_ne_zero]

theorem defaultCascade_eq_spec (vs : VariantsMap) (ow : Option Nat) :
    defaultCascade (some vs) ow = specDefaultVariant vs ow := by
  simp only [defaultCascade, specDefaultVariant, numTruthyLeMedium_eq_specWidthOk]

theorem defaultCascade_ne_empty (variants : Option VariantsMap) (ow : Option Nat) :
    defaultCascade variants ow ≠ "" := by
  cases variants with
  | none => simp [defaultCascade]
  | some vs =>
    simp only [defaultCascade]
    split_ifs <;> decide

theorem calculateDefaultVariant_not_truthy (m : AssetMetadata)
    (h : truthyS m.default_variant = false) :
    calculateDefaultVariant m = defaultCascade m.variants m.original_width := by
  simp [calculateDefaultVariant, h]

theorem defaultCascade_present (vs : VariantsMap) (ow : Option Nat)
    (hrec : (lookupVar vs "thumb").isSome = true ∨ (lookupVar vs "medium").isSome = true ∨
      (lookupVar vs "large").isSome = true ∨ (lookupVar vs "original").isSome = true) :
    (lookupVar vs (defaultCascade (some vs) ow)).isSome = true := by
  unfold defaultCascade
  by_cases hm : (lookupVar vs "medium").isSome = true
  · simp [hm]
  · by_cases ho : (lookupVar vs "original").isSome = true
    · by_cases hw : numTruthyLeMedium ow = true
      · simp [hm, ho, hw]
      · by_cases hl : (lookupVar vs "large").isSome = true
        · simp [hm, ho, hw, hl]
        · simp [hm, ho, hw, hl]
    · by_cases hl : (lookupVar vs "large").isSome = true
      · simp [hm, ho, hl]
      · by_cases ht : (lookupVar vs "thumb").isSome = true
        · simp [hm, ho, hl, ht]
        · rcases hrec with h | h | h | h <;> simp [h] at ht hm hl ho

theorem fallbackChains_of_valid (req : String) (h : isValidVariantName req = true) :
    fallbackChains req = some (specFallbackChain req) := by
  have hdis : req = "thumb" ∨ req = "medium" ∨ req = "large" ∨ req = "original" := by
    simpa [isValidVariantName, VARIANT_NAMES] using h
  rcases hdis with rfl | rfl | rfl | rfl <;> rfl

/-! ## Claims -/

/-- Claim C1: for every variant-bearing record and every recognized target
variant name, the resolver walks the spec's fixed fallback chain for the
target (thumb: thumb, medium, original; medium: medium, original; large:
large, medium, original; original: original only) and returns the first
entry present in the variants mapping together with that entry's name as
the actual variant served; in particular thumb against a record holding
only medium and original resolves to the medium entry reported as medium,
and original against a record lacking original resolves to not-found. -/
theorem claim_C1 :
    (∀ (m : AssetMetadata) (vs : VariantsMap) (req : String),
      hasVariants m = true → m.variants = some vs → isValidVariantName req = true →
      getVariantToServe m req = Except.ok (walkChain vs (specFallbackChain req)))
    ∧ (∀ (m : AssetMetadata) (v2 v3 : ImageVariant),
      m.is_image = true → m.variants = some [("medium", v2), ("original", v3)] →
      getVariantToServe m "thumb" = Except.ok (some (v2, "medium")))
    ∧ (∀ (m : AssetMetadata) (vs : VariantsMap),
      m.variants = some vs → lookupVar vs "original" = none →
      getVariantToServe m "original" = Except.ok none) := by
  refine ⟨?_, ?_, ?_⟩
  · intro m vs req _ h2 h3
    simp [getVariantToServe, h2, fallbackChains_of_valid req h3]
  · intro m v2 v3 _ h2
    simp [getVariantToServe, h2, fallbackChains, walkChain, lookupVar, List.find?]
  · intro m vs h2 hlook
    simp [getVariantToServe, h2, fallbackChains, walkChain, hlook]

/-- Witness for C1 at a concrete record and request. -/
theorem claim_C1_witness :
    getVariantToServe mEx1 "thumb" = Except.ok (some (vEx, "medium")) :=
  claim_C1.1 mEx1 [("medium", vEx), ("original", vEx)] "thumb" (by decide) rfl (by decide)

/-- Claim C2: for every variant-bearing record lacking a (truthy) explicit
default variant, default-variant computation equals the spec's cascade:
medium if present; else original if present with a known (recorded,
positive) original width at most 1288; else large; else original; else
thumb; else original as last resort.  A missing original width makes the
size rule's guard false, so the cascade continues, exactly as claimed. -/
theorem claim_C2 :
    ∀ (m : AssetMetadata) (vs : VariantsMap),
      hasVariants m = true → m.variants = some vs → truthyS m.default_variant = false →
      calculateDefaultVariant m = specDefaultVariant vs m.original_width := by
  intro m vs _ h2 h3
  rw [calculateDefaultVariant_not_truthy m h3, h2, defaultCascade_eq_spec]

/-- Witness for C2 at a concrete record. -/
theorem claim_C2_witness :
    calculateDefaultVariant mEx1 = "medium" :=
  claim_C2 mEx1 [("medium", vEx), ("original", vEx)] (by decide) rfl rfl

/-- Claim C3: a retrieval against a scalar (non-variant-bearing) record
whose first path token is a recognized variant name yields the 400-class
invalid-request outcome — never a served object and never a not-found —
and that outcome is distinct from the 404 not-found outcomes. -/
theorem claim_C3 :
    ∀ (m : AssetMetadata) (path : String),
      hasVariants m = false → isValidVariantName (firstToken path) = true →
      resolveRetrieval m path = Outcome.variantsNotAvailable ∧
      statusCode (resolveRetrieval m path) = 400 ∧
      (∀ s, Outcome.variantsNotAvailable ≠ Outcome.noSuitableVariant s) ∧
      (∀ v a, Outcome.variantsNotAvailable ≠ Outcome.serveVariant v a) ∧
      (∀ k, Outcome.variantsNotAvailable ≠ Outcome.servePrimaryR2 k) ∧
      (∀ u, Outcome.variantsNotAvailable ≠ Outcome.servePrimaryUrl u) ∧
      (∀ s, statusCode (Outcome.noSuitableVariant s) = 404) := by
  intro m path h1 h2
  have hres : resolveRetrieval m path = Outcome.variantsNotAvailable := by
    simp [resolveRetrieval, h1, h2]
  refine ⟨hres, by rw [hres]; rfl, ?_, ?_, ?_, ?_, ?_⟩
  · intro s h; cases h
  · intro v a h; cases h
  · intro k h; cases h
  · intro u h; cases h
  · intro s; rfl

/-- Witness for C3 at a concrete scalar record and variant path. -/
theorem claim_C3_witness :
    resolveRetrieval mScalar "thumb" = Outcome.variantsNotAvailable :=
  (claim_C3 mScalar "thumb" (by decide) (by decide)).1

/-- A variant entry carrying both location sources at once. -/
def vBoth : ImageVariant :=
  { r2_key := some "k", url := some "u", width := some 1, height := some 2,
    size_bytes := some 3 }

/-- Registration body whose single variant entry carries both sources. -/
def bodyC4 : RegBody := { is_image := true, variants := some [("thumb", vBoth)] }

/-- Counterexample to C4 as stated: an image registration whose variant
entry populates both location sources (url and r2_key) passes validation
and is persisted, instead of being rejected. -/
theorem claim_C4_counterexample :
    truthyS vBoth.url = true ∧ truthyS vBoth.r2_key = true ∧
    validateRegistrationBody bodyC4 = ValidationResult.ok ∧
    (handleRegistration bodyC4).isSome = true := by decide

/-- Claim C4 (amended): validation of an image registration carrying a
variants mapping accepts exactly when the mapping is non-empty and every
entry carries at least one non-empty location source (not exactly one:
both at once is allowed) and all three numeric fields; a rejection for a
bad entry names the first offending variant, and a rejected body is
never persisted. -/
theorem claim_C4_amended :
    ∀ (body : RegBody) (entries : VariantsMap),
      body.is_image = true → body.variants = some entries →
      (validateRegistrationBody body = ValidationResult.ok ↔
        entries ≠ [] ∧ ∀ e ∈ entries, specVariantOk e.2) ∧
      (∀ name, validateRegistrationBody body = .err (.invalidVariant name) →
        ∃ v, (name, v) ∈ entries ∧ ¬ specVariantOk v) ∧
      (validateRegistrationBody body ≠ ValidationResult.ok →
        handleRegistration body = none) := by
  intro body entries h1 h2
  cases hfi : findInvalidVariant entries with
  | some name =>
    have hval : validateRegistrationBody body = .err (.invalidVariant name) := by
      simp [validateRegistrationBody, h1, h2, hfi]
    refine ⟨?_, ?_, ?_⟩
    · rw [hval]
      constructor
      · intro hcon
        exact ValidationResult.noConfusion hcon
      · intro hcon
        obtain ⟨v, hv, hvf⟩ := findInvalidVariant_eq_some entries name hfi
        have hsp := hcon.2 (name, v) hv
        rw [← validateVariant_iff_spec, hvf] at hsp
        exact Bool.noConfusion hsp
    · intro n hn
      rw [hval] at hn
      obtain rfl : name = n := by simpa using hn
      obtain ⟨v, hv, hvf⟩ := findInvalidVariant_eq_some entries name hfi
      refine ⟨v, hv, ?_⟩
      rw [← validateVariant_iff_spec, hvf]
      simp
    · intro _
      simp [handleRegistration, hval]
  | none =>
    by_cases hlen : entries = []
    · subst hlen
      have hval : validateRegistrationBody body = .err .emptyVariants := by
        simp [validateRegistrationBody, h1, h2, findInvalidVariant]
      refine ⟨?_, ?_, ?_⟩
      · simp [hval]
      · intro n hn
        rw [hval] at hn
        simp at hn
      · intro _
        simp [handleRegistration, hval]
    · have hval : validateRegistrationBody body = ValidationResult.ok := by
        simp [validateRegistrationBody, h1, h2, hfi, List.length_eq_zero, hlen]
      refine ⟨?_, ?_, ?_⟩
      · rw [hval]
        simp only [true_iff]
        refine ⟨hlen, ?_⟩
        intro e he
        rw [← validateVariant_iff_spec]
        exact (findInvalidVariant_eq_none_iff entries).mp hfi e he
      · intro n hn
        rw [hval] at hn
        simp at hn
      · intro hcon
        exact absurd hval hcon

/-- A well-formed single-variant image registration body. -/
def bodyOkThumb : RegBody := { is_image := true, variants := some [("thumb", vEx)] }

/-- Witness for the amended C4 at a concrete well-formed body. -/
theorem claim_C4_witness :
    validateRegistrationBody bodyOkThumb = ValidationResult.ok :=
  ((claim_C4_amended bodyOkThumb [("thumb", vEx)] rfl rfl).1).mpr (by decide)

/-- Registration body with an explicit default naming an absent variant. -/
def bodyC5 : RegBody :=
  { is_image := true, r2_key := some "k", variants := some [("medium", vEx)],
    default_variant := some "thumb" }

/-- Counterexample to C5 as stated: a registration supplying an explicit
default_variant of thumb while the variants mapping holds only medium is
accepted, and the persisted variant-bearing record's default names a key
absent from its variants mapping. -/
theorem claim_C5_counterexample :
    (handleRegistration bodyC5).map
        (fun m => (hasVariants m, m.default_variant,
          (lookupVar (m.variants.getD []) "thumb").isSome)) =
      some (true, some "thumb", false) := by decide

/-- Claim C5 (amended): the persisted default names a present key
provided the registration body supplies no (truthy) explicit
default_variant and the variants mapping holds at least one recognized
variant name; an explicitly supplied default is persisted unvalidated,
and a mapping of only unrecognized names gets the unconditional fallback
default original, also absent. -/
theorem claim_C5_amended :
    ∀ (body : RegBody) (entries : VariantsMap) (m : AssetMetadata),
      body.is_image = true → body.variants = some entries →
      truthyS body.default_variant = false →
      ((lookupVar entries "thumb").isSome = true ∨
        (lookupVar entries "medium").isSome = true ∨
        (lookupVar entries "large").isSome = true ∨
        (lookupVar entries "original").isSome = true) →
      handleRegistration body = some m →
      ∃ d, m.default_variant = some d ∧ (lookupVar entries d).isSome = true := by
  intro body entries m h1 h2 h3 hrec hreg
  have hne : entries ≠ [] := by
    intro h
    subst h
    simp [lookupVar] at hrec
  cases hval : validateRegistrationBody body with
  | err e => simp [handleRegistration, hval] at hreg
  | ok =>
    have hhv : hasVariants (buildMetadata body) = true := by
      simp [hasVariants, buildMetadata, h1, h2, List.length_pos, hne]
    have hcond : (hasVariants (buildMetadata body) &&
        !truthyS (buildMetadata body).default_variant) = true := by
      have hbd : (buildMetadata body).default_variant = body.default_variant := rfl
      simp [hhv, hbd, h3]
    rw [handleRegistration, hval] at hreg
    simp only [hcond, if_true] at hreg
    obtain rfl := (Option.some.inj hreg).symm
    refine ⟨calculateDefaultVariant (buildMetadata body), rfl, ?_⟩
    have hcd : calculateDefaultVariant (buildMetadata body) =
        defaultCascade (some entries) body.original_width := by
      rw [calculateDefaultVariant_not_truthy _ (by simpa using h3)]
      simp [buildMetadata, h2]
    rw [hcd]
    exact defaultCascade_present entries body.original_width hrec

/-- A variant-bearing body with medium present and no explicit default. -/
def bodyOkMedium : RegBody :=
  { is_image := true, r2_key := some "k", variants := some [("medium", vEx)] }

/-- The record registration persists for bodyOkMedium. -/
def mOkMedium : AssetMetadata :=
  { storage_type := "r2", r2_key := some "k", is_image := true,
    variants := some [("medium", vEx)], default_variant := some "medium" }

/-- Witness for the amended C5 at a concrete body and persisted record. -/
theorem claim_C5_witness :
    ∃ d, mOkMedium.default_variant = some d ∧
      (lookupVar [("medium", vEx)] d).isSome = true :=
  claim_C5_amended bodyOkMedium [("medium", vEx)] mOkMedium rfl rfl rfl
    (Or.inr (Or.inl (by decide))) (by decide)

/-- Image registration body without variants carrying both locations. -/
def bodyC6 : RegBody := { is_image := true, url := some "u", r2_key := some "k" }

/-- Counterexample to C6 as stated: an image body without a variants
mapping that carries both url and r2_key is accepted, not rejected. -/
theorem claim_C6_counterexample :
    bodyC6.is_image = true ∧ bodyC6.variants = none ∧
    truthyS bodyC6.url = true ∧ truthyS bodyC6.r2_key = true ∧
    validateRegistrationBody bodyC6 = ValidationResult.ok := by decide

/-- Claim C6 (amended): for an image body without a variants mapping,
only the no-location case is rejected: validation accepts exactly when
at least one of url and r2_key is non-empty (a body carrying both is
accepted, unlike the non-image rule). -/
theorem claim_C6_amended :
    ∀ body : RegBody, body.is_image = true → body.variants = none →
      (validateRegistrationBody body = ValidationResult.ok ↔
        (truthyS body.url || truthyS body.r2_key) = true) ∧
      (validateRegistrationBody body = .err .missingLocationImage ↔
        truthyS body.url = false ∧ truthyS body.r2_key = false) := by
  intro body h1 h2
  cases hu : truthyS body.url <;> cases hr : truthyS body.r2_key <;>
    simp [validateRegistrationBody, h1, h2, hu, hr]

/-- An image body without variants carrying exactly one location. -/
def bodyC6w : RegBody := { is_image := true, url := some "u" }

/-- Witness for the amended C6 at a concrete body. -/
theorem claim_C6_witness :
    validateRegistrationBody bodyC6w = ValidationResult.ok :=
  ((claim_C6_amended bodyC6w rfl rfl).1).mpr (by decide)

/-- Image registration body using an unrecognized variant name. -/
def bodyC7 : RegBody := { is_image := true, variants := some [("huge", vEx)] }

/-- Counterexample to C7 as stated: a variants mapping keyed by the
unrecognized name huge passes validation and is persisted verbatim. -/
theorem claim_C7_counterexample :
    isValidVariantName "huge" = false ∧
    validateRegistrationBody bodyC7 = ValidationResult.ok ∧
    (handleRegistration bodyC7).map (fun m => m.variants) =
      some (some [("huge", vEx)]) := by decide

/-- Claim C7 (amended): registration does not reject unrecognized
variant names: validation checks only each entry's fields, so a body
whose entries are all field-valid is accepted and persisted with its
variants mapping unchanged, even when it contains a key outside the
fixed variant-name set. -/
theorem claim_C7_amended :
    ∀ (body : RegBody) (entries : VariantsMap) (name : String) (v : ImageVariant),
      body.is_image = true → body.variants = some entries →
      (name, v) ∈ entries → isValidVariantName name = false →
      (∀ e ∈ entries, validateVariant e.2 = true) →
      ∃ m, handleRegistration body = some m ∧ m.variants = some entries := by
  intro body entries name v h1 h2 hmem _ hall
  have hne : entries ≠ [] := by
    intro h
    subst h
    simp at hmem
  have hfi : findInvalidVariant entries = none :=
    (findInvalidVariant_eq_none_iff entries).mpr hall
  have hval : validateRegistrationBody body = ValidationResult.ok := by
    simp [validateRegistrationBody, h1, h2, hfi, List.length_eq_zero, hne]
  have hbv : (buildMetadata body).variants = some entries := by
    simp [buildMetadata, h2]
  rw [handleRegistration, hval]
  by_cases hcond : (hasVariants (buildMetadata body) &&
      !truthyS (buildMetadata body).default_variant) = true
  · simp only [hcond, if_true]
    exact ⟨_, rfl, hbv⟩
  · simp only [hcond, if_false]
    exact ⟨_, rfl, hbv⟩

/-- Witness for the amended C7 at the concrete unrecognized-name body. -/
theorem claim_C7_witness :
    ∃ m, handleRegistration bodyC7 = some m ∧ m.variants = some [("huge", vEx)] :=
  claim_C7_amended bodyC7 [("huge", vEx)] "huge" vEx rfl rfl (by decide) (by decide)
    (by decide)

/-- Claim C8 round-trip: a variant-bearing registration without a
(truthy) explicit default persists a default equal to the default
computed from the record at registration time, and a retrieval of the
persisted record with no variant selector targets exactly that variant,
which coincides with freshly recomputing the default over the same
variant set (the persisted record with its explicit default cleared). -/
theorem claim_C8 :
    ∀ (body : RegBody) (entries : VariantsMap) (m : AssetMetadata),
      body.is_image = true → body.variants = some entries →
      truthyS body.default_variant = false →
      handleRegistration body = some m →
      ∃ d, m.default_variant = some d ∧
        retrievalTarget m "" = some d ∧
        d = calculateDefaultVariant { m with default_variant := none } := by
  intro body entries m h1 h2 h3 hreg
  cases hval : validateRegistrationBody body with
  | err e => simp [handleRegistration, hval] at hreg
  | ok =>
    have hne : entries ≠ [] := by
      intro h
      subst h
      simp [validateRegistrationBody, h1, h2, findInvalidVariant] at hval
    have hhv : hasVariants (buildMetadata body) = true := by
      simp [hasVariants, buildMetadata, h1, h2, List.length_pos, hne]
    have hbd : (buildMetadata body).default_variant = body.default_variant := rfl
    have hcond : (hasVariants (buildMetadata body) &&
        !truthyS (buildMetadata body).default_variant) = true := by
      simp [hhv, hbd, h3]
    rw [handleRegistration, hval] at hreg
    simp only [hcond, if_true] at hreg
    obtain rfl := (Option.some.inj hreg).symm
    set m0 := buildMetadata body with hm0
    set d := calculateDefaultVariant m0 with hd
    have hdc : d = defaultCascade m0.variants m0.original_width := by
      rw [hd, calculateDefaultVariant_not_truthy m0 (by simp [hbd, h3])]
    have hdne : d ≠ "" := by
      rw [hdc]
      exact defaultCascade_ne_empty _ _
    refine ⟨d, rfl, ?_, ?_⟩
    · have hhv2 : hasVariants { m0 with default_variant := some d } = true := by
        simpa [hasVariants] using hhv
      have hfp : firstToken "" = "" := rfl
      have hinv : isValidVariantName "" = false := rfl
      have htr : truthyS (some d) = true := by simp [truthyS, hdne]
      simp [retrievalTarget, hhv2, hfp, hinv, calculateDefaultVariant, htr]
    · rw [hdc,
        calculateDefaultVariant_not_truthy { m0 with default_variant := none } rfl]

/-- A variant-bearing body with medium and original, width 4416. -/
def body8 : RegBody :=
  { is_image := true, r2_key := some "k", original_width := some 4416,
    variants := some [("medium", vEx), ("original", vEx)] }

/-- The record registration persists for body8. -/
def m8 : AssetMetadata :=
  { storage_type := "r2", r2_key := some "k", is_image := true,
    original_width := some 4416,
    variants := some [("medium", vEx), ("original", vEx)],
    default_variant := some "medium" }

/-- Witness for C8 at a concrete body and its persisted record. -/
theorem claim_C8_witness :
    ∃ d, m8.default_variant = some d ∧
      retrievalTarget m8 "" = some d ∧
      d = calculateDefaultVariant { m8 with default_variant := none } :=
  claim_C8 body8 [("medium", vEx), ("original", vEx)] m8 rfl rfl rfl (by decide)

/-- A variant-bearing record with medium present and an explicitly set
default of thumb. -/
def mC9 : AssetMetadata :=
  { storage_type := "r2", r2_key := some "k", is_image := true,
    variants := some [("medium", vEx)], default_variant := some "thumb" }

/-- Counterexample to C9 as stated: on a variant-bearing record with
medium present but an explicit default of thumb, default-variant
computation returns thumb, not medium — the explicit field is not
ignored. -/
theorem claim_C9_counterexample :
    hasVariants mC9 = true ∧
    (lookupVar (mC9.variants.getD []) "medium").isSome = true ∧
    calculateDefaultVariant mC9 = "thumb" ∧
    ("thumb" : String) ≠ "medium" := by decide

/-- Claim C9 (amended): an explicitly set (truthy) default_variant takes
precedence; in its absence, default-variant computation returns medium
whenever medium is present, regardless of every other field. -/
theorem claim_C9_amended :
    ∀ (m : AssetMetadata) (vs : VariantsMap),
      m.variants = some vs → truthyS m.default_variant = false →
      (lookupVar vs "medium").isSome = true →
      calculateDefaultVariant m = "medium" := by
  intro m vs h1 h2 h3
  rw [calculateDefaultVariant_not_truthy m h2, h1]
  simp [defaultCascade, h3]

/-- Witness for the amended C9 at a concrete record. -/
theorem claim_C9_witness :
    calculateDefaultVariant mEx1 = "medium" :=
  claim_C9_amended mEx1 [("medium", vEx), ("original", vEx)] rfl rfl (by decide)

/-- Claim C10: when is_image is false, a supplied variants mapping is
never consulted: validation is invariant under replacing the variants
field and follows the non-image scalar rule, and at read time the record
is never variant-bearing — a recognized variant token is rejected as
invalid-request, anything else is served from the primary location, and
the scalar branch never serves a variant entry. -/
theorem claim_C10 :
    (∀ (body : RegBody) (vs : Option VariantsMap), body.is_image = false →
      validateRegistrationBody { body with variants := vs } =
        validateRegistrationBody body)
    ∧ (∀ body : RegBody, body.is_image = false →
      validateRegistrationBody body =
        (if !truthyS body.url && !truthyS body.r2_key then .err .missingLocation
         else if truthyS body.url && truthyS body.r2_key then .err .ambiguousLocation
         else ValidationResult.ok))
    ∧ (∀ (m : AssetMetadata) (path : String), m.is_image = false →
        (isValidVariantName (firstToken path) = true →
          resolveRetrieval m path = Outcome.variantsNotAvailable) ∧
        (isValidVariantName (firstToken path) = false →
          resolveRetrieval m path = scalarServe m))
    ∧ (∀ (m : AssetMetadata) (v : ImageVariant) (a : String),
        scalarServe m ≠ Outcome.serveVariant v a) := by
  refine ⟨?_, ?_, ?_, ?_⟩
  · intro body vs h
    simp [validateRegistrationBody, h]
  · intro body h
    simp [validateRegistrationBody, h]
  · intro m path h
    have hhv : hasVariants m = false := by simp [hasVariants, h]
    constructor
    · intro htok
      simp [resolveRetrieval, hhv, htok]
    · intro htok
      simp [resolveRetrieval, hhv, htok]
  · intro m v a
    rw [scalarServe]
    split_ifs <;> intro hcon <;> cases hcon

/-- Witness for C10: the retrieval conjunct at a concrete non-image
record and recognized variant token. -/
theorem claim_C10_witness :
    resolveRetrieval mScalar "medium" = Outcome.variantsNotAvailable :=
  (claim_C10.2.2.1 mScalar "medium" rfl).1 (by decide)

end ArkeCdn
